import Mathlib

/-!
Shallow embedding of the SpaceX portfolio tracker (portfolio.py).

Python floats are modelled as exact rationals (ℚ); Python `None` as
`Option.none`; Python exceptions as `Except PyErr`.  Upstream HTTP
responses are modelled as explicit inputs (the already-decoded JSON
bodies together with a success flag for the HTTP status), so every
function of the source becomes a pure function of its inputs.
-/

set_option linter.unusedVariables false

/-- The kinds of Python exceptions that the modelled code can raise. -/
inductive PyErr where
  /-- `TypeError` (e.g. subtracting a number from `None`, or `float(None)`). -/
  | typeError
  /-- `ValueError` (e.g. `float` applied to a non-numeric string). -/
  | valueError
  /-- `requests.HTTPError` raised by `resp.raise_for_status()` on a
  non-success HTTP status. -/
  | httpStatusError
  /-- `RuntimeError("Unexpected API response")`. -/
  | runtimeError
  deriving DecidableEq, Repr

/-- The two exchanges of `token_info["exchange_holdings"]`. -/
inductive Exchange where
  | jarsy
  | jupiter
  deriving DecidableEq, Repr

/-- One entry of `token_info["exchange_holdings"]`. -/
structure Holding where
  symbol : String
  cost_basis : ℚ
  quantity : ℚ
  deriving DecidableEq, Repr

/-- The static `token_info["exchange_holdings"]` configuration. -/
def token_info_holdings : Exchange → Holding
  | .jarsy => { symbol := "JSPAX", cost_basis := 840, quantity := 2.489 }
  | .jupiter =>
    { symbol := "PreANxuXjsy2pvisWWMNB6YaJNzr7681wJJr2rHsfTh"
      cost_basis := 335.07, quantity := 4.531 }

/-- A JSON value found in a token entry's `price` field, classified by how
Python's `float(...)` treats it: a JSON number, a string that parses as a
float (carrying its value), a string that does not parse, or any other
value (list, object, JSON null decoded to `None`, ...). -/
inductive JsonNum where
  | num (q : ℚ)
  | numStr (q : ℚ)
  | badStr
  | nonNumeric
  deriving DecidableEq, Repr

/-- `float(price)` where `price = token.get("price")`: a missing field is
Python `None` (`TypeError`); a non-parsing string is a `ValueError`; any
other non-numeric value is a `TypeError`. -/
def pyFloat : Option JsonNum → Except PyErr ℚ
  | none => .error .typeError
  | some (.num q) => .ok q
  | some (.numStr q) => .ok q
  | some .badStr => .error .valueError
  | some .nonNumeric => .error .typeError

/-- One entry of the jarsy token list: `token.get("coin")` and
`token.get("price")`, each possibly missing. -/
structure JarsyToken where
  coin : Option String
  price : Option JsonNum
  deriving DecidableEq, Repr

/-- The decoded jarsy token-list response: `http_ok` is whether
`resp.raise_for_status()` passes (2xx status); `code` is
`payload.get("code")`; `data` is `payload.get("data", [])` (a missing
field is the empty list, as in the source's default). -/
structure JarsyResponse where
  http_ok : Bool
  code : Option Int
  data : List JarsyToken
  deriving DecidableEq, Repr

/-- The `for token in payload.get("data", [])` loop of
`get_jarsy_token_price`: at the first token whose `coin` equals the
symbol, `return float(price)`, with `TypeError`/`ValueError` caught and
turned into `return None`; if no token matches, `return None`. -/
def jarsy_find_price : List JarsyToken → String → Option ℚ
  | [], _ => none
  | t :: rest, symbol =>
    if t.coin = some symbol then
      match pyFloat t.price with
      | .ok q => some q
      | .error _ => none
    else jarsy_find_price rest symbol

/-- `get_jarsy_token_price(symbol)`: the `symbol` parameter is immediately
overwritten with the static jarsy symbol from `token_info`; a non-success
HTTP status raises; a top-level `code` other than `200` raises
`RuntimeError`; otherwise the token list is scanned for the symbol. -/
def get_jarsy_token_price (symbol : Option String) (resp : JarsyResponse) :
    Except PyErr (Option ℚ) :=
  let symbol := (token_info_holdings .jarsy).symbol
  if resp.http_ok = false then .error .httpStatusError
  else if resp.code ≠ some 200 then .error .runtimeError
  else .ok (jarsy_find_price resp.data symbol)

/-- The decoded jupiter order response: `http_ok` is whether
`resp.raise_for_status()` passes; `inUsdValue` is `data.get("inUsdValue")`
(assumed numeric when present, as the source returns it untouched). -/
structure JupiterResponse where
  http_ok : Bool
  inUsdValue : Option ℚ
  deriving DecidableEq, Repr

/-- `get_jupiter_token_price(input_mint)`: the `input_mint` parameter is
immediately overwritten with the static jupiter mint from `token_info`;
a non-success HTTP status raises; otherwise `data.get("inUsdValue")` is
returned directly (possibly `None`). -/
def get_jupiter_token_price (input_mint : Option String)
    (resp : JupiterResponse) : Except PyErr (Option ℚ) :=
  let input_mint := (token_info_holdings .jupiter).symbol
  if resp.http_ok = false then .error .httpStatusError
  else .ok resp.inUsdValue

/-- The dict returned by `calculate_p_l`. -/
structure PnLResult where
  pnl : ℚ
  pnl_percent : ℚ
  buy_price : ℚ
  deriving DecidableEq, Repr

/-- `calculate_p_l(exchange, current_price)`.  The source annotates
`current_price: float`, but `get_portfolio_summary` passes the fetcher
results, which may be `None`; `None - purchase_price` then raises
`TypeError`, so the input is modelled as `Option ℚ` with the `none` case
raising. -/
def calculate_p_l (exchange : Exchange) (current_price : Option ℚ) :
    Except PyErr PnLResult :=
  let holdings := token_info_holdings exchange
  let purchase_price := holdings.cost_basis
  let quantity := holdings.quantity
  match current_price with
  | none => .error .typeError
  | some p =>
    .ok { pnl := (p - purchase_price) * quantity
          pnl_percent := ((p - purchase_price) / purchase_price) * 100
          buy_price := purchase_price }

/-- One per-exchange block of the summary dict. -/
structure PositionPnL where
  pnl : ℚ
  pnl_percent : ℚ
  buy_price : ℚ
  current_price : Option ℚ
  position_value : Option ℚ
  deriving DecidableEq, Repr

/-- The `total` block of the summary dict. -/
structure Totals where
  pnl : ℚ
  pnl_percent : ℚ
  portfolio_value : ℚ
  invested : ℚ
  deriving DecidableEq, Repr

/-- The dict returned by `get_portfolio_summary`. -/
structure PortfolioSummary where
  jarsy : PositionPnL
  jupiter : PositionPnL
  total : Totals
  deriving DecidableEq, Repr

/-- The conditional expression computing `total_pnl_percent`:
`(total_pnl / total_invested) * 100 if total_invested else 0`
(Python truthiness: a float is falsy exactly when it is zero). -/
def guarded_pnl_percent (total_pnl total_invested : ℚ) : ℚ :=
  if total_invested ≠ 0 then (total_pnl / total_invested) * 100 else 0

/-- The body of `get_portfolio_summary` after the two fetch calls, as a
function of the two fetched prices.  Python truthiness guards
(`if jarsy_price`, `... if jarsy_price else None`) test the value, so a
price of exactly `0.0` takes the falsy branch just as `None` does. -/
def portfolio_summary_of_prices (jarsy_price jupiter_price : Option ℚ) :
    Except PyErr PortfolioSummary := do
  let jarsy_pnl ← calculate_p_l .jarsy jarsy_price
  let jupiter_pnl ← calculate_p_l .jupiter jupiter_price
  let total_pnl := jarsy_pnl.pnl + jupiter_pnl.pnl
  let jarsyH := token_info_holdings .jarsy
  let jupiterH := token_info_holdings .jupiter
  let total_invested :=
    jarsyH.cost_basis * jarsyH.quantity + jupiterH.cost_basis * jupiterH.quantity
  let total_pnl_percent := guarded_pnl_percent total_pnl total_invested
  let tpv0 : ℚ := 0
  let tpv1 : ℚ :=
    match jarsy_price with
    | some p => if p ≠ 0 then tpv0 + p * jarsyH.quantity else tpv0
    | none => tpv0
  let total_portfolio_value : ℚ :=
    match jupiter_price with
    | some p => if p ≠ 0 then tpv1 + p * jupiterH.quantity else tpv1
    | none => tpv1
  return {
    jarsy := {
      pnl := jarsy_pnl.pnl
      pnl_percent := jarsy_pnl.pnl_percent
      buy_price := jarsy_pnl.buy_price
      current_price := jarsy_price
      position_value :=
        match jarsy_price with
        | some p => if p ≠ 0 then some (p * jarsyH.quantity) else none
        | none => none }
    jupiter := {
      pnl := jupiter_pnl.pnl
      pnl_percent := jupiter_pnl.pnl_percent
      buy_price := jupiter_pnl.buy_price
      current_price := jupiter_price
      position_value :=
        match jupiter_price with
        | some p => if p ≠ 0 then some (p * jupiterH.quantity) else none
        | none => none }
    total := {
      pnl := total_pnl
      pnl_percent := total_pnl_percent
      portfolio_value := total_portfolio_value
      invested := total_invested } }

/-- `get_portfolio_summary()`: fetch both prices (each fetch may raise,
propagated), then build the summary dict. -/
def get_portfolio_summary (jarsyResp : JarsyResponse)
    (jupiterResp : JupiterResponse) : Except PyErr PortfolioSummary := do
  let jarsy_price ← get_jarsy_token_price none jarsyResp
  let jupiter_price ← get_jupiter_token_price none jupiterResp
  portfolio_summary_of_prices jarsy_price jupiter_price

/-- Side effects of the `/api/update-title` handler, in the order they are
attempted. -/
inductive Effect where
  | fetch_prices
  | update_title
  deriving DecidableEq, Repr

/-- The HTTP responses the `/api/update-title` handler can produce:
`200` with the success dict, `401 Unauthorized`, or `500` with the
stringified exception as detail. -/
inductive ApiResponse where
  | ok200 (status : String) (new_title : String)
      (portfolio : PortfolioSummary) (updated_at : String)
  | err401 (detail : String)
  | err500 (detail : String)
  deriving DecidableEq, Repr

/-- `str(e)` for the modelled exceptions (representative messages; the
handler only forwards them as the 500 detail). -/
def errMsg : PyErr → String
  | .typeError => "unsupported operand type for subtraction: NoneType"
  | .valueError => "could not convert string to float"
  | .httpStatusError => "HTTP error for url"
  | .runtimeError => "Unexpected API response"

/-- Insert thousands separators into a reversed digit list, grouping by
three (fuel-driven recursion; the fuel starts at the list length). -/
def commasRevAux : Nat → List Char → List Char
  | 0, ds => ds
  | _ + 1, [] => []
  | n + 1, ds =>
    if ds.length ≤ 3 then ds
    else ds.take 3 ++ [','] ++ commasRevAux n (ds.drop 3)

/-- Insert thousands separators into a digit string. -/
def insertCommas (s : String) : String :=
  String.mk ((commasRevAux s.length s.data.reverse).reverse)

/-- The f-string formatting of `total_pnl` with thousands separators and
two decimal places, modelled as exact decimal rounding of the rational. -/
def format_amount (q : ℚ) : String :=
  let cents : Int := round (q * 100)
  let sign := if cents < 0 then "-" else ""
  let a := cents.natAbs
  let whole := a / 100
  let frac := a % 100
  sign ++ insertCommas (toString whole) ++ "." ++
    (if frac < 10 then "0" else "") ++ toString frac

/-- The headers of the incoming request:
`request.headers.get("authorization", "")` defaults a missing header to
the empty string. -/
structure UpdateTitleRequest where
  authorization : Option String
  deriving DecidableEq, Repr

/-- The `try` block of `api_update_title`: build the summary (a raised
exception becomes a 500), format the title, push it to YouTube (a raised
exception becomes a 500), else return the 200 dict.  The two downstream
outcomes and the formatted current time are inputs; the returned list
records which side effects were attempted. -/
def api_update_title_body (summary_result : Except PyErr PortfolioSummary)
    (title_update_result : Except PyErr Unit) (now : String) :
    ApiResponse × List Effect :=
  match summary_result with
  | .error e => (.err500 (errMsg e), [.fetch_prices])
  | .ok summary =>
    let total_pnl := summary.total.pnl
    let amount := format_amount total_pnl
    let new_title := "How I Made $" ++ amount ++ " with SpaceX Stock..."
    match title_update_result with
    | .error e => (.err500 (errMsg e), [.fetch_prices, .update_title])
    | .ok _ => (.ok200 "ok" new_title summary now, [.fetch_prices, .update_title])

/-- `api_update_title(request)`: if `CRON_SECRET` is set and truthy
(non-empty), compare the authorization header against the bearer string
and return 401 on mismatch before anything else; otherwise run the
`try` block. -/
def api_update_title (cron_secret : Option String)
    (request : UpdateTitleRequest)
    (summary_result : Except PyErr PortfolioSummary)
    (title_update_result : Except PyErr Unit) (now : String) :
    ApiResponse × List Effect :=
  match cron_secret with
  | some s =>
    if s = "" then api_update_title_body summary_result title_update_result now
    else
      let auth_header := request.authorization.getD ""
      if auth_header = "Bearer " ++ s then
        api_update_title_body summary_result title_update_result now
      else (.err401 "Unauthorized", [])
  | none => api_update_title_body summary_result title_update_result now

/-- The value `portfolio_summary_of_prices` computes when both prices are
defined, written out explicitly (proved equal to the source embedding by
`of_prices_some` below). -/
def summary_value (p q : ℚ) : PortfolioSummary :=
  { jarsy := { pnl := (p - 840) * 2.489
               pnl_percent := ((p - 840) / 840) * 100
               buy_price := 840
               current_price := some p
               position_value := if p ≠ 0 then some (p * 2.489) else none }
    jupiter := { pnl := (q - 335.07) * 4.531
                 pnl_percent := ((q - 335.07) / 335.07) * 100
                 buy_price := 335.07
                 current_price := some q
                 position_value := if q ≠ 0 then some (q * 4.531) else none }
    total := { pnl := (p - 840) * 2.489 + (q - 335.07) * 4.531
               pnl_percent :=
                 guarded_pnl_percent ((p - 840) * 2.489 + (q - 335.07) * 4.531)
                   (840 * 2.489 + 335.07 * 4.531)
               portfolio_value :=
                 if q ≠ 0 then
                   (if p ≠ 0 then 0 + p * 2.489 else 0) + q * 4.531
                 else (if p ≠ 0 then 0 + p * 2.489 else 0)
               invested := 840 * 2.489 + 335.07 * 4.531 } }

lemma of_prices_some (p q : ℚ) :
    portfolio_summary_of_prices (some p) (some q) = .ok (summary_value p q) := rfl

lemma of_prices_none_left (upo : Option ℚ) :
    portfolio_summary_of_prices none upo = .error .typeError := rfl

lemma of_prices_none_right (p : ℚ) :
    portfolio_summary_of_prices (some p) none = .error .typeError := rfl

lemma of_prices_ok_shape (jpo upo : Option ℚ) (s : PortfolioSummary)
    (h : portfolio_summary_of_prices jpo upo = .ok s) :
    ∃ p q, jpo = some p ∧ upo = some q ∧ s = summary_value p q := by
  match jpo, upo with
  | none, _ => rw [of_prices_none_left] at h; cases h
  | some p, none => rw [of_prices_none_right] at h; cases h
  | some p, some q =>
    rw [of_prices_some] at h
    exact ⟨p, q, rfl, rfl, (Except.ok.inj h).symm⟩

lemma get_portfolio_summary_ok_shape (rA : JarsyResponse) (rB : JupiterResponse)
    (s : PortfolioSummary) (h : get_portfolio_summary rA rB = .ok s) :
    ∃ p q, s = summary_value p q := by
  unfold get_portfolio_summary at h
  cases hA : get_jarsy_token_price none rA with
  | error e => rw [hA] at h; cases h
  | ok jp =>
    rw [hA] at h
    cases hB : get_jupiter_token_price none rB with
    | error e => rw [hB] at h; cases h
    | ok up =>
      rw [hB] at h
      obtain ⟨p, q, -, -, hs⟩ := of_prices_ok_shape jp up s h
      exact ⟨p, q, hs⟩

/-- C9: both fetchers ignore their declared parameter — the result depends
only on the static configuration and the upstream response, never on the
caller-supplied argument, because the parameter is overwritten before
use. -/
theorem fetchers_ignore_argument :
    (∀ (a b : Option String) (resp : JarsyResponse),
       get_jarsy_token_price a resp = get_jarsy_token_price b resp) ∧
    (∀ (a b : Option String) (resp : JupiterResponse),
       get_jupiter_token_price a resp = get_jupiter_token_price b resp) :=
  ⟨fun _ _ _ => rfl, fun _ _ _ => rfl⟩

/-- C3: for every holding and every defined current price `P`, with the
holding's cost basis `C` positive, `calculate_p_l` returns exactly
`pnl = (P - C) * Q` and `pnl_percent = (P - C) / C * 100`, with no
rounding. -/
theorem calculate_p_l_exact (e : Exchange) (P : ℚ)
    (hC : 0 < (token_info_holdings e).cost_basis) :
    calculate_p_l e (some P) = .ok
      { pnl := (P - (token_info_holdings e).cost_basis) *
          (token_info_holdings e).quantity
        pnl_percent := ((P - (token_info_holdings e).cost_basis) /
          (token_info_holdings e).cost_basis) * 100
        buy_price := (token_info_holdings e).cost_basis } := rfl

theorem calculate_p_l_exact_witness :
    0 < (token_info_holdings .jarsy).cost_basis ∧
    calculate_p_l .jarsy (some 1000) = .ok
      { pnl := (1000 - (token_info_holdings .jarsy).cost_basis) *
          (token_info_holdings .jarsy).quantity
        pnl_percent := ((1000 - (token_info_holdings .jarsy).cost_basis) /
          (token_info_holdings .jarsy).cost_basis) * 100
        buy_price := (token_info_holdings .jarsy).cost_basis } :=
  ⟨by decide, calculate_p_l_exact .jarsy 1000 (by decide)⟩

/-- C1 (code bug): the spec requires an absent price to degrade to a
position with `pnl = 0` and absent price fields, but the code passes the
`None` price straight into `calculate_p_l`, whose subtraction raises
`TypeError`; with both prices absent no summary is produced at all.  Both
fetchers below succeed with "no price" (empty token list, missing
`inUsdValue`), yet `get_portfolio_summary` raises. -/
theorem absent_prices_raise_type_error :
    get_jarsy_token_price none ⟨true, some 200, []⟩ = .ok none ∧
    get_jupiter_token_price none ⟨true, none⟩ = .ok none ∧
    get_portfolio_summary ⟨true, some 200, []⟩ ⟨true, none⟩ =
      .error .typeError := ⟨rfl, rfl, rfl⟩

/-- C2 (code bug): here neither fetcher signals a hard failure — jarsy
returns the price `1000` and jupiter returns "no price" — yet
`get_portfolio_summary` raises `TypeError` instead of returning a complete
summary, contradicting "fails if and only if a fetcher signals a hard
failure". -/
theorem no_hard_failure_still_raises :
    get_jarsy_token_price none
        ⟨true, some 200, [⟨some "JSPAX", some (.num 1000)⟩]⟩ = .ok (some 1000) ∧
    get_jupiter_token_price none ⟨true, none⟩ = .ok none ∧
    get_portfolio_summary ⟨true, some 200, [⟨some "JSPAX", some (.num 1000)⟩]⟩
        ⟨true, none⟩ = .error .typeError := ⟨rfl, rfl, rfl⟩

lemma jarsy_find_price_eq_none (sym : String) (tokens : List JarsyToken)
    (h : ∀ t ∈ tokens, t.coin = some sym → (pyFloat t.price).toOption = none) :
    jarsy_find_price tokens sym = none := by
  induction tokens with
  | nil => rfl
  | cons t rest ih =>
    by_cases hc : t.coin = some sym
    · have hbad := h t (List.mem_cons_self t rest) hc
      unfold jarsy_find_price
      rw [if_pos hc]
      cases hp : pyFloat t.price with
      | ok v => rw [hp] at hbad; simp [Except.toOption] at hbad
      | error e => rfl
    · unfold jarsy_find_price
      rw [if_neg hc]
      exact ih fun t' ht' hc' => h t' (List.mem_cons_of_mem t ht') hc'

/-- C4: the jarsy fetcher returns "no price" (without raising) when every
token matching the configured symbol has a missing or non-numeric price
field — which in particular covers a symbol absent from the list — while
a non-success HTTP status or a top-level `code` other than `200` raises a
hard failure instead. -/
theorem jarsy_fetcher_error_contract :
    (∀ (sym : Option String) (resp : JarsyResponse), resp.http_ok = false →
       get_jarsy_token_price sym resp = .error .httpStatusError) ∧
    (∀ (sym : Option String) (resp : JarsyResponse), resp.http_ok = true →
       resp.code ≠ some 200 →
       get_jarsy_token_price sym resp = .error .runtimeError) ∧
    (∀ (sym : Option String) (resp : JarsyResponse), resp.http_ok = true →
       resp.code = some 200 →
       (∀ t ∈ resp.data, t.coin = some (token_info_holdings .jarsy).symbol →
          (pyFloat t.price).toOption = none) →
       get_jarsy_token_price sym resp = .ok none) := by
  refine ⟨?_, ?_, ?_⟩
  · intro sym resp h
    simp [get_jarsy_token_price, h]
  · intro sym resp h1 h2
    simp [get_jarsy_token_price, h1, h2]
  · intro sym resp h1 h2 h3
    simp [get_jarsy_token_price, h1, h2, jarsy_find_price_eq_none _ _ h3]

theorem jarsy_fetcher_error_contract_witness :
    get_jarsy_token_price none ⟨false, some 200, []⟩ = .error .httpStatusError ∧
    get_jarsy_token_price none ⟨true, some 500, []⟩ = .error .runtimeError ∧
    get_jarsy_token_price none
      ⟨true, some 200, [⟨some "JSPAX", none⟩, ⟨some "OTHER", some (.num 3)⟩]⟩ =
      .ok none := by
  refine ⟨jarsy_fetcher_error_contract.1 none _ rfl,
    jarsy_fetcher_error_contract.2.1 none _ rfl (by decide),
    jarsy_fetcher_error_contract.2.2 none _ rfl rfl (by decide)⟩

/-- C5: the jupiter fetcher returns "no price" when the response body has
a successful status but no `inUsdValue` field, and raises a hard failure
on a non-success response. -/
theorem jupiter_fetcher_error_contract :
    (∀ (m : Option String) (resp : JupiterResponse), resp.http_ok = false →
       get_jupiter_token_price m resp = .error .httpStatusError) ∧
    (∀ (m : Option String) (resp : JupiterResponse), resp.http_ok = true →
       resp.inUsdValue = none → get_jupiter_token_price m resp = .ok none) := by
  constructor
  · intro m resp h
    simp [get_jupiter_token_price, h]
  · intro m resp h1 h2
    simp [get_jupiter_token_price, h1, h2]

theorem jupiter_fetcher_error_contract_witness :
    get_jupiter_token_price none ⟨false, some 3⟩ = .error .httpStatusError ∧
    get_jupiter_token_price none ⟨true, none⟩ = .ok none :=
  ⟨jupiter_fetcher_error_contract.1 none _ rfl,
   jupiter_fetcher_error_contract.2 none _ rfl rfl⟩

/-- C6: every summary `get_portfolio_summary` produces has
`total.invested = 840 * 2.489 + 335.07 * 4.531`, whatever the upstream
responses were. -/
theorem total_invested_constant (rA : JarsyResponse) (rB : JupiterResponse)
    (s : PortfolioSummary) (h : get_portfolio_summary rA rB = .ok s) :
    s.total.invested = 840 * 2.489 + 335.07 * 4.531 := by
  obtain ⟨p, q, rfl⟩ := get_portfolio_summary_ok_shape rA rB s h
  rfl

/-- A concrete jarsy response listing the configured symbol at price 840. -/
def sample_jarsy_resp : JarsyResponse :=
  ⟨true, some 200, [⟨some "JSPAX", some (.num 840)⟩]⟩

/-- A concrete jupiter response quoting 335.07. -/
def sample_jupiter_resp : JupiterResponse := ⟨true, some 335.07⟩

/-- The summary computed from the two sample responses. -/
def sample_summary : PortfolioSummary := summary_value 840 335.07

theorem total_invested_constant_witness :
    sample_summary.total.invested = 840 * 2.489 + 335.07 * 4.531 :=
  total_invested_constant sample_jarsy_resp sample_jupiter_resp sample_summary rfl

/-- C7: in every summary produced, `total.pnl_percent` is the guarded
expression `(total.pnl / total.invested) * 100 if total.invested else 0`:
it equals `total.pnl / total.invested * 100` whenever `total.invested` is
non-zero, and the guard itself yields `0` (rather than a division error)
when the invested amount is `0`. -/
theorem total_pnl_percent_guarded :
    (∀ (rA : JarsyResponse) (rB : JupiterResponse) (s : PortfolioSummary),
       get_portfolio_summary rA rB = .ok s →
       s.total.pnl_percent = guarded_pnl_percent s.total.pnl s.total.invested ∧
       (s.total.invested ≠ 0 →
         s.total.pnl_percent = s.total.pnl / s.total.invested * 100)) ∧
    (∀ p : ℚ, guarded_pnl_percent p 0 = 0) := by
  constructor
  · intro rA rB s h
    obtain ⟨p, q, rfl⟩ := get_portfolio_summary_ok_shape rA rB s h
    refine ⟨rfl, fun hne => ?_⟩
    have hg : (summary_value p q).total.pnl_percent =
        guarded_pnl_percent (summary_value p q).total.pnl
          (summary_value p q).total.invested := rfl
    rw [hg]
    simp only [guarded_pnl_percent]
    rw [if_pos hne]
  · intro p
    simp [guarded_pnl_percent]

theorem total_pnl_percent_guarded_witness :
    (sample_summary.total.pnl_percent =
       guarded_pnl_percent sample_summary.total.pnl sample_summary.total.invested ∧
     sample_summary.total.pnl_percent =
       sample_summary.total.pnl / sample_summary.total.invested * 100) ∧
    guarded_pnl_percent 7 0 = 0 := by
  have h := total_pnl_percent_guarded.1 sample_jarsy_resp sample_jupiter_resp
    sample_summary rfl
  exact ⟨⟨h.1, h.2 (by norm_num [sample_summary, summary_value])⟩,
    total_pnl_percent_guarded.2 7⟩

/-- C10: a price of exactly `0` is treated as priceless for valuation —
`position_value` is absent and the position contributes nothing to
`total.portfolio_value`, because the guards test Python truthiness — while
`pnl` and `pnl_percent` are still computed from the price `0`, so the
position has a defined `current_price`, a full-loss `pnl`, and an absent
`position_value` at once (shown for each of the two holdings, with the
other price arbitrary). -/
theorem zero_price_is_priceless :
    (∀ q : ℚ, ∃ s, portfolio_summary_of_prices (some 0) (some q) = .ok s ∧
       s.jarsy.current_price = some 0 ∧
       s.jarsy.position_value = none ∧
       s.jarsy.pnl = (0 - 840) * 2.489 ∧
       s.jarsy.pnl_percent = ((0 - 840) / 840) * 100 ∧
       s.total.portfolio_value = (if q ≠ 0 then q * 4.531 else 0)) ∧
    (∀ p : ℚ, ∃ s, portfolio_summary_of_prices (some p) (some 0) = .ok s ∧
       s.jupiter.current_price = some 0 ∧
       s.jupiter.position_value = none ∧
       s.jupiter.pnl = (0 - 335.07) * 4.531 ∧
       s.jupiter.pnl_percent = ((0 - 335.07) / 335.07) * 100 ∧
       s.total.portfolio_value = (if p ≠ 0 then p * 2.489 else 0)) := by
  constructor
  · intro q
    refine ⟨summary_value 0 q, of_prices_some 0 q, rfl,
      by simp [summary_value], rfl, rfl, ?_⟩
    by_cases hq : q = 0 <;> simp [summary_value, hq]
  · intro p
    refine ⟨summary_value p 0, of_prices_some p 0, rfl,
      by simp [summary_value], rfl, rfl, ?_⟩
    by_cases hp : p = 0 <;> simp [summary_value, hp]

/-- C8: the update-title endpoint returns 401 with no side effects when a
non-empty secret is configured and the authorization header differs from
the bearer string; applies no authorization check when no secret is
configured (the response does not depend on the request); returns 200
with status, new_title, portfolio and updated_at on success; and returns
500 with the diagnostic message on a downstream failure (price fetch or
title update). -/
theorem api_update_title_contract :
    (∀ (s : String) (req : UpdateTitleRequest)
       (sr : Except PyErr PortfolioSummary) (tr : Except PyErr Unit)
       (now : String), s ≠ "" →
       req.authorization.getD "" ≠ "Bearer " ++ s →
       api_update_title (some s) req sr tr now = (.err401 "Unauthorized", [])) ∧
    (∀ (req req' : UpdateTitleRequest) (sr : Except PyErr PortfolioSummary)
       (tr : Except PyErr Unit) (now : String),
       api_update_title none req sr tr now =
         api_update_title none req' sr tr now) ∧
    (∀ (req : UpdateTitleRequest) (sum : PortfolioSummary) (now : String),
       api_update_title none req (.ok sum) (.ok ()) now =
         (.ok200 "ok"
            ("How I Made $" ++ format_amount sum.total.pnl ++
              " with SpaceX Stock...")
            sum now,
          [.fetch_prices, .update_title])) ∧
    (∀ (req : UpdateTitleRequest) (e : PyErr) (tr : Except PyErr Unit)
       (now : String),
       api_update_title none req (.error e) tr now =
         (.err500 (errMsg e), [.fetch_prices])) ∧
    (∀ (req : UpdateTitleRequest) (sum : PortfolioSummary) (e : PyErr)
       (now : String),
       api_update_title none req (.ok sum) (.error e) now =
         (.err500 (errMsg e), [.fetch_prices, .update_title])) := by
  refine ⟨?_, ?_, ?_, ?_, ?_⟩
  · intro s req sr tr now h1 h2
    simp [api_update_title, h1, h2]
  · intro req req' sr tr now
    rfl
  · intro req sum now
    rfl
  · intro req e tr now
    rfl
  · intro req sum e now
    rfl

theorem api_update_title_contract_witness :
    api_update_title (some "sek") ⟨some "nope"⟩ (.error .typeError) (.ok ())
      "2026-10-12 00:00:00" = (.err401 "Unauthorized", []) :=
  api_update_title_contract.1 "sek" ⟨some "nope"⟩ (.error .typeError) (.ok ())
    "2026-10-12 00:00:00" (by decide) (by decide)
